import Mathlib

/-!
Verification of the evaluation harness in
`src/discord-cluster-manager/run_eval.py` (compile driver, process runner,
file materializer/cleanup, dispatcher), via a shallow embedding in Lean.

Python strings are modelled as Lean `String`, Python dictionaries as
insertion-ordered association lists with last-write-wins update, subprocess
interactions as oracles supplied to each function, and the working directory
plus observable side effects as an explicit `Trace` threaded through the
stateful functions.  Python exceptions are modelled with `Except`.
-/

/-- Characters treated as whitespace by Python's `str.strip()` (the ASCII
whitespace characters plus the common one-byte Unicode space characters;
lines handed to `strip` in this program come from `splitlines`, so the
line-break characters below can only occur at this call site as argument
padding). -/
def pyIsSpace (c : Char) : Bool :=
  c = ' ' || c = '\t' || c = '\n' || c = '\r' || c = '\x0b' || c = '\x0c' ||
  c = '\x1c' || c = '\x1d' || c = '\x1e' || c = '\x85' || c = '\xa0'

/-- Python `str.strip()`: remove leading and trailing whitespace. -/
def pyStrip (s : String) : String :=
  String.mk (((s.data.dropWhile pyIsSpace).reverse.dropWhile pyIsSpace).reverse)

/-- Characters at which Python's `str.splitlines()` breaks lines. -/
def pyIsLineBreak (c : Char) : Bool :=
  c = '\n' || c = '\r' || c = '\x0b' || c = '\x0c' || c = '\x1c' ||
  c = '\x1d' || c = '\x1e' || c = '\x85' || c = '\u2028' || c = '\u2029'

/-- Worker for `pySplitlines`, accumulating the current line reversed. -/
def pySplitlinesAux : List Char → List Char → List String
  | [], acc => if acc.isEmpty then [] else [String.mk acc.reverse]
  | '\r' :: '\n' :: rest, acc => String.mk acc.reverse :: pySplitlinesAux rest []
  | c :: rest, acc =>
      if pyIsLineBreak c then String.mk acc.reverse :: pySplitlinesAux rest []
      else pySplitlinesAux rest (c :: acc)

/-- Python `str.splitlines()`: split at line boundaries, treating `\r\n` as a
single boundary and producing no trailing empty line. -/
def pySplitlines (s : String) : List String :=
  pySplitlinesAux s.data []

/-- Worker for `partitionColon` on character lists. -/
def partitionColonAux : List Char → List Char × List Char
  | [] => ([], [])
  | c :: rest =>
      if c = ':' then ([], rest)
      else
        let p := partitionColonAux rest
        (c :: p.1, p.2)

/-- The head and tail of Python's `line.partition(":")`: split at the first
colon; when no colon occurs the whole string is the head and the tail is
empty (exactly the two components `run_program` uses). -/
def partitionColon (s : String) : String × String :=
  let p := partitionColonAux s.data
  (String.mk p.1, String.mk p.2)

/-- Characters `shlex.quote` considers safe: ASCII alphanumerics, underscore,
and the characters @ % + = : , . / - (Python's `_find_unsafe` regular
expression with ASCII semantics finds nothing). -/
def shlexSafeChar (c : Char) : Bool :=
  (c.isAlpha && c.toNat < 128) || (c.isDigit) || c = '_' || c = '@' ||
  c = '%' || c = '+' || c = '=' || c = ':' || c = ',' || c = '.' ||
  c = '/' || c = '-'

/-- Python `shlex.quote`. -/
def shlexQuote (s : String) : String :=
  if s = "" then "''"
  else if s.data.all shlexSafeChar then s
  else "'" ++ s.replace "'" "'\"'\"'" ++ "'"

/-- `_make_cmd` from `run_eval.py`: shell-quote each argument and join with
spaces. -/
def mkCmd (args : List String) : String :=
  String.intercalate " " (args.map shlexQuote)

/-- Python dictionary update `d[k] = v` on an insertion-ordered association
list: an existing key keeps its position and gets the new value, a new key is
appended. -/
def dictInsert : List (String × String) → String → String →
    List (String × String)
  | [], k, v => [(k, v)]
  | p :: rest, k, v =>
      if p.1 = k then (k, v) :: rest else p :: dictInsert rest k v

/-- Python `d.get(k, None)` on the association-list dictionary model. -/
def dictGet? (d : List (String × String)) (k : String) : Option String :=
  (d.find? (fun p => p.1 = k)).map Prod.snd

/-- One iteration of the verdict-parsing loop of `run_program`
(run_eval.py lines 151-155): partition the line at the first colon, skip it
when its raw head and raw tail are both empty, otherwise store the stripped
head/tail pair with last write winning. -/
def parseStep (d : List (String × String)) (line : String) :
    List (String × String) :=
  let kv := partitionColon line
  if kv.1 ≠ "" ∨ kv.2 ≠ "" then dictInsert d (pyStrip kv.1) (pyStrip kv.2)
  else d

/-- The whole verdict parse: fold `parseStep` over the payload's lines,
starting from the empty dictionary. -/
def parseVerdict (s : String) : List (String × String) :=
  (pySplitlines s).foldl parseStep []

/-- `CompileResult` dataclass from `run_eval.py`. -/
structure CompileResult where
  nvcc_found : Bool
  nvcc_version : String
  success : Bool
  command : String
  stdout : String
  stderr : String
  exit_code : Int
deriving DecidableEq, Repr

/-- `RunResult` dataclass from `run_eval.py`; `duration` is the measured
wall-clock time in seconds, modelled as a rational. -/
structure RunResult where
  success : Bool
  passed : Bool
  command : String
  stdout : String
  stderr : String
  exit_code : Int
  duration : ℚ
  result : List (String × String)
deriving DecidableEq, Repr

/-- `FullResult` dataclass from `run_eval.py`. -/
structure FullResult where
  success : Bool
  error : String
  compile : Option CompileResult
  run : Option RunResult
deriving DecidableEq, Repr

/-- Modelled from the spec: `run_eval.py` imports `ExitCode` from `consts`,
but the `consts.py` under `src/` does not define it.  The spec's exit-code
contract says code 0 means full success. -/
def ExitCode.SUCCESS : Int := 0

/-- Modelled from the spec: the second member of the missing `ExitCode` enum,
"a second specific code" meaning the harness ran but the verdict check
failed.  Its concrete value is immaterial to the claims; it is only required
to be a fixed code distinct from 0. -/
def ExitCode.VALIDATE_FAIL : Int := 1

/-- Modelled from the spec: `run_eval.py` imports `CUDA_FLAGS` from `consts`,
but the `consts.py` under `src/` does not define it.  The spec describes it
only as "a fixed set of baseline flags"; its contents are immaterial to the
claims. -/
def CUDA_FLAGS : List String := ["-std=c++20"]

/-- The fields of Python's `subprocess.CalledProcessError` consumed by
`compile_cuda_script`. -/
structure CalledProcessError where
  cmd : List String
  stdout : String
  stderr : String
  returncode : Int
deriving DecidableEq, Repr

/-- The fields of Python's `subprocess.CompletedProcess` consumed by
`compile_cuda_script`. -/
structure CompletedProcess where
  args : List String
  stdout : String
  stderr : String
  returncode : Int
deriving DecidableEq, Repr

/-- Oracle for the three subprocess interactions of `compile_cuda_script`:
`which nvcc`, `nvcc --version` (both via `check_output`, which raises
`CalledProcessError` on a nonzero exit), and the compile invocation itself
(via `subprocess.run` with `check=True`). -/
structure CompileEnv where
  whichNvcc : Except CalledProcessError String
  nvccVersion : Except CalledProcessError String
  compileRun : List String → Except CalledProcessError CompletedProcess

/-- `compile_cuda_script` from `run_eval.py` (lines 52-125): locate `nvcc`,
query its version, build the compile command from the baseline flags, the
include directories, the source files, the architecture flag and the fixed
output name, and run it; each `CalledProcessError` is converted into a
failed `CompileResult` rather than propagated. -/
def compile_cuda_script (env : CompileEnv) (files : List String)
    (arch : Option Int) (include_dirs : Option (List String)) :
    CompileResult :=
  let incs := include_dirs.getD []
  match env.whichNvcc with
  | Except.error e =>
      { nvcc_found := false, nvcc_version := "", success := false,
        command := mkCmd e.cmd, stdout := e.stdout, stderr := e.stderr,
        exit_code := e.returncode }
  | Except.ok nvccOut =>
    match env.nvccVersion with
    | Except.error e =>
        { nvcc_found := false, nvcc_version := "", success := false,
          command := mkCmd e.cmd, stdout := e.stdout, stderr := e.stderr,
          exit_code := e.returncode }
    | Except.ok nvcc_version =>
      let nvcc := pyStrip nvccOut
      let archFlag :=
        match arch with
        | none => "-arch=native"
        | some a => "-gencode=arch=compute_" ++ toString a ++ ",code=sm_" ++
            toString a
      let command :=
        [nvcc] ++ CUDA_FLAGS ++ incs ++ files ++ [archFlag, "-o", "eval.out"]
      match env.compileRun command with
      | Except.error e =>
          { nvcc_found := true, nvcc_version := nvcc_version,
            success := false, command := mkCmd e.cmd, stdout := e.stdout,
            stderr := e.stderr, exit_code := e.returncode }
      | Except.ok p =>
          { nvcc_found := true, nvcc_version := nvcc_version,
            success := true, command := mkCmd p.args, stdout := p.stdout,
            stderr := p.stderr, exit_code := p.returncode }

/-- What one spawned child process is observed to do: exit code, captured
standard streams, the bytes it wrote into the verdict pipe before closing
it, and the measured wall-clock duration of the spawn-to-exit interval. -/
structure ChildOutcome where
  returncode : Int
  stdout : String
  stderr : String
  pipeContent : String
  duration : ℚ
deriving DecidableEq, Repr

/-- Oracle mapping a command line and seed to the child's observed
behaviour. -/
structure RunEnv where
  outcome : List String → Int → ChildOutcome

/-- The operating-system-level steps `run_program` performs, in order:
create the pipe, expose the write end and the seed in the environment,
spawn the child (write end inherited), close the parent's copy of the write
end, read the read end to end-of-stream. -/
inductive SysOp where
  | osPipe
  | setPopcornEnv (seed : Int)
  | spawnChild (args : List String)
  | closeWriteEnd
  | readPipeToEof
deriving DecidableEq, Repr

/-- `run_program` from `run_eval.py` (lines 128-169): spawn the child with
the pipe's write end, close the parent's write end, drain the pipe, parse
the verdict, and assemble the `RunResult`.  Returns the result together
with the ordered list of system-level steps performed. -/
def run_program (o : ChildOutcome) (args : List String) (seed : Int) :
    RunResult × List SysOp :=
  let result_dict := parseVerdict o.pipeContent
  ({ success := o.returncode == ExitCode.SUCCESS ||
        o.returncode == ExitCode.VALIDATE_FAIL,
     passed := dictGet? result_dict "check" == some "pass",
     command := mkCmd args,
     stdout := o.stdout,
     stderr := o.stderr,
     exit_code := o.returncode,
     duration := o.duration,
     result := result_dict },
   [SysOp.osPipe, SysOp.setPopcornEnv seed, SysOp.spawnChild args,
    SysOp.closeWriteEnd, SysOp.readPipeToEof])

/-- Observable working-directory effects of the materializer and the
runner.  An `execProgram` event records which files were present in the
working directory at the moment the program was launched. -/
inductive Event where
  | writeFile (name : String)
  | removeFile (name : String)
  | execProgram (args : List String) (filesPresent : List String)
deriving DecidableEq, Repr

/-- The working directory (set of file names, insertion-ordered) together
with the log of effects performed so far. -/
structure Trace where
  files : List String
  events : List Event
deriving DecidableEq, Repr

/-- `Path(name).write_text(content)`: creates the file if absent (content
is not tracked; only presence matters to the claims). -/
def writeFile1 (name : String) (t : Trace) : Trace :=
  { files := if name ∈ t.files then t.files else t.files ++ [name],
    events := t.events ++ [Event.writeFile name] }

/-- The materialization loop: write every entry of a filename-to-content
mapping into the working directory. -/
def writeFiles (m : List (String × String)) (t : Trace) : Trace :=
  m.foldl (fun t p => writeFile1 p.1 t) t

/-- `if os.path.exists(f): os.remove(f)`. -/
def removeIfExists (f : String) (t : Trace) : Trace :=
  if f ∈ t.files then
    { files := t.files.filter (fun x => x != f),
      events := t.events ++ [Event.removeFile f] }
  else t

/-- The cleanup loop over a list of file names. -/
def cleanupFiles (fs : List String) (t : Trace) : Trace :=
  fs.foldl (fun t f => removeIfExists f t) t

/-- The Python exceptions this core can raise. -/
inductive PyErr where
  | attributeError (msg : String)
  | assertionError
  | valueError (msg : String)
deriving DecidableEq, Repr

/-- `run_program` as invoked by the evaluation paths: executes the program
(recording the exec event together with the files present at that moment)
and returns the `RunResult`. -/
def run_program_tr (renv : RunEnv) (args : List String) (seed : Int)
    (t : Trace) : RunResult × Trace :=
  ((run_program (renv.outcome args seed) args seed).1,
   { t with events := t.events ++ [Event.execProgram args t.files] })

/-- The synthetic failed `RunResult` returned by `run_cuda_script` when
compilation fails (run_eval.py lines 213-222). -/
def syntheticFailedRun : RunResult :=
  { success := false, passed := false, command := "", stdout := "",
    stderr := "", exit_code := -1, duration := 0, result := [] }

/-- `run_cuda_script` from `run_eval.py` (lines 172-233): write sources and
headers, compile, clean up all written files in the `finally` block (which
runs before the early `return` on compile failure and before the artifact
is executed on success), then run the artifact.  When `headers` is `None`,
`headers.items()` raises `AttributeError` after the sources were written,
and the `finally` block itself raises again at `headers.keys()` before
removing anything, so the exception propagates with the sources still on
disk. -/
def run_cuda_script (cenv : CompileEnv) (renv : RunEnv)
    (sources : List (String × String))
    (headers : Option (List (String × String))) (arch : Option Int)
    (include_dirs : Option (List String)) (seed : Int) (t : Trace) :
    Except PyErr (CompileResult × RunResult) × Trace :=
  let t1 := writeFiles sources t
  match headers with
  | none =>
      (Except.error
        (PyErr.attributeError "NoneType object has no attribute keys"), t1)
  | some hs =>
      let t2 := writeFiles hs t1
      let compile_result :=
        compile_cuda_script cenv (sources.map Prod.fst) arch include_dirs
      let tmp_files := sources.map Prod.fst ++ hs.map Prod.fst
      let t3 := cleanupFiles tmp_files t2
      if compile_result.success then
        let er := run_program_tr renv ["./eval.out"] seed t3
        (Except.ok (compile_result, er.1), er.2)
      else
        (Except.ok (compile_result, syntheticFailedRun), t3)

/-- `run_pytorch_script` from `run_eval.py` (lines 236-265): assert the
entry point is among the sources, write the sources, run the interpreter on
the entry point, and clean up in the `finally` block (which also runs when
the assertion fails). -/
def run_pytorch_script (renv : RunEnv) (sources : List (String × String))
    (main : String) (arch : Option Int) (seed : Int) (t : Trace) :
    Except PyErr RunResult × Trace :=
  if main ∈ sources.map Prod.fst then
    let t1 := writeFiles sources t
    let er := run_program_tr renv ["python", main] seed t1
    let t2 := cleanupFiles (sources.map Prod.fst) er.2
    (Except.ok er.1, t2)
  else
    let t1 := cleanupFiles (sources.map Prod.fst) t
    (Except.error PyErr.assertionError, t1)

/-- A job configuration as consumed by `run_config`: the `lang`, `sources`
and (on the scripted path) `main` entries are accessed with mandatory
lookups, while `arch`, `headers` and `include_dirs` are accessed with
`config.get(..., default)`, modelled as optional fields. -/
structure Config where
  lang : String
  sources : List (String × String)
  main : String
  arch : Option Int
  headers : Option (List (String × String))
  include_dirs : Option (List String)

/-- `run_config` from `run_eval.py` (lines 268-283): dispatch on the
language, defaulting `headers` to the empty mapping and `include_dirs` to
the empty list and leaving the seed at its default of 42; any other
language raises `ValueError` before anything is written. -/
def run_config (cenv : CompileEnv) (renv : RunEnv) (config : Config)
    (t : Trace) : Except PyErr FullResult × Trace :=
  if config.lang = "py" then
    match run_pytorch_script renv config.sources config.main config.arch
        42 t with
    | (Except.ok rr, t') =>
        (Except.ok
          { success := true, error := "", compile := none, run := some rr },
         t')
    | (Except.error e, t') => (Except.error e, t')
  else if config.lang = "cu" then
    match run_cuda_script cenv renv config.sources
        (some (config.headers.getD [])) config.arch
        (some (config.include_dirs.getD [])) 42 t with
    | (Except.ok cr, t') =>
        (Except.ok
          { success := true, error := "", compile := some cr.1,
            run := some cr.2 },
         t')
    | (Except.error e, t') => (Except.error e, t')
  else
    (Except.error (PyErr.valueError ("Invalid language " ++ config.lang)), t)

/-- Fixture: a toolchain environment where everything succeeds. -/
def cenvOk : CompileEnv :=
  { whichNvcc := Except.ok "/usr/local/cuda/bin/nvcc\n",
    nvccVersion := Except.ok "nvcc: V12.4\n",
    compileRun := fun c =>
      Except.ok { args := c, stdout := "", stderr := "", returncode := 0 } }

/-- Fixture: a toolchain environment where `which nvcc` fails. -/
def cenvNoNvcc : CompileEnv :=
  { whichNvcc := Except.error
      { cmd := ["which", "nvcc"], stdout := "", stderr := "not found",
        returncode := 1 },
    nvccVersion := Except.error
      { cmd := ["nvcc", "--version"], stdout := "", stderr := "",
        returncode := 127 },
    compileRun := fun c =>
      Except.error { cmd := c, stdout := "", stderr := "", returncode := 1 } }

/-- Fixture: a child that exits 0 and reports a passing verdict. -/
def renvPass : RunEnv :=
  { outcome := fun _ _ =>
      { returncode := 0, stdout := "ok", stderr := "",
        pipeContent := "check: pass\n", duration := 1 } }

/-- Fixture: a child that exits 0 but writes nothing to the pipe. -/
def renvSilent : RunEnv :=
  { outcome := fun _ _ =>
      { returncode := 0, stdout := "", stderr := "", pipeContent := "",
        duration := 1 } }

/-- Fixture: the empty working directory with no effects performed. -/
def emptyTrace : Trace := { files := [], events := [] }

/-- Spec-side description of which verdict lines are kept: a line is kept
unless its colon-partition head and tail are both empty. -/
def keptLine (L : String) : Bool :=
  !((partitionColon L).1 == "" && (partitionColon L).2 == "")

/-- Spec-side description of the pair a kept line contributes: the
colon-partition head and tail, each with surrounding whitespace trimmed. -/
def stripPair (L : String) : String × String :=
  (pyStrip (partitionColon L).1, pyStrip (partitionColon L).2)

/-- Spec-side description of the sequence of key/value pairs a payload
contributes, in line order: the stripped pairs of exactly the kept lines. -/
def keptPairs (s : String) : List (String × String) :=
  ((pySplitlines s).filter keptLine).map stripPair

/-- The value associated with `k` by the *last* pair of `ps` whose key is
`k`, if any. -/
def lastValue (ps : List (String × String)) (k : String) : Option String :=
  (ps.reverse.find? (fun p => p.1 = k)).map Prod.snd

example : pySplitlines "a\nb\n" = ["a", "b"] := by decide
example : pySplitlines "" = [] := by decide
example : pySplitlines "\n" = [""] := by decide
example : partitionColon "a:b:c" = ("a", "b:c") := by decide
example : partitionColon "abc" = ("abc", "") := by decide
example : pyStrip "  x y " = "x y" := by decide
example : parseVerdict "check: pass\nscore: 12.5\n" =
    [("check", "pass"), ("score", "12.5")] := by decide
example : parseVerdict "a:1\n\n:\nb:\na:2" = [("a", "2"), ("b", "")] := by
  decide

example :
    (run_cuda_script cenvOk renvSilent [("kernel.cu", "x")]
      (some [("util.h", "y")]) none none 42 emptyTrace).2.files = [] := by
  decide

example :
    (run_cuda_script cenvOk renvSilent [("kernel.cu", "x")]
      (some [("util.h", "y")]) none none 42 emptyTrace).2.events =
    [Event.writeFile "kernel.cu", Event.writeFile "util.h",
     Event.removeFile "kernel.cu", Event.removeFile "util.h",
     Event.execProgram ["./eval.out"] []] := by decide

example :
    (run_cuda_script cenvOk renvSilent [("kernel.cu", "x")] none none none
      42 emptyTrace).2.files = ["kernel.cu"] := by decide

example :
    (run_cuda_script cenvNoNvcc renvSilent [("kernel.cu", "x")]
      (some []) none none 42 emptyTrace).1 =
    Except.ok
      (compile_cuda_script cenvNoNvcc ["kernel.cu"] none none,
       syntheticFailedRun) := rfl

example :
    (run_config cenvOk renvPass
      { lang := "py", sources := [("main.py", "x")], main := "main.py",
        arch := none, headers := none, include_dirs := none }
      emptyTrace).2.events =
    [Event.writeFile "main.py",
     Event.execProgram ["python", "main.py"] ["main.py"],
     Event.removeFile "main.py"] := by decide

theorem dictGet?_nil (k : String) : dictGet? [] k = none := rfl

theorem dictGet?_cons (p : String × String) (d : List (String × String))
    (k : String) :
    dictGet? (p :: d) k = if p.1 = k then some p.2 else dictGet? d k := by
  by_cases h : p.1 = k <;> simp [dictGet?, List.find?_cons, h]

theorem dictGet?_dictInsert (d : List (String × String)) (k v k' : String) :
    dictGet? (dictInsert d k v) k' =
      if k' = k then some v else dictGet? d k' := by
  induction d with
  | nil =>
      by_cases h : k' = k
      · simp [dictInsert, dictGet?_cons, h]
      · simp [dictInsert, dictGet?_cons, dictGet?_nil, h,
          show ¬ k = k' from fun hc => h hc.symm]
  | cons p rest ih =>
      by_cases hp : p.1 = k
      · by_cases hk : k' = k
        · simp [dictInsert, dictGet?_cons, hp, hk]
        · simp [dictInsert, dictGet?_cons, hp, hk,
            show ¬ k = k' from fun hc => hk hc.symm,
            show ¬ p.1 = k' from fun hc => hk (hc.symm.trans hp)]
      · by_cases hk : k' = k
        · subst hk
          simp [dictInsert, dictGet?_cons, hp, ih]
        · by_cases hpk : p.1 = k'
          · simp [dictInsert, dictGet?_cons, hp, hk, hpk]
          · simp [dictInsert, dictGet?_cons, hp, hk, hpk, ih]

theorem mem_dictInsert (d : List (String × String)) (k v : String)
    (p : String × String) (h : p ∈ dictInsert d k v) :
    p ∈ d ∨ p = (k, v) := by
  induction d with
  | nil =>
      right
      simpa [dictInsert] using h
  | cons q rest ih =>
      by_cases hq : q.1 = k
      · rw [dictInsert, if_pos hq] at h
        rcases List.mem_cons.mp h with h1 | h2
        · right; exact h1
        · left; exact List.mem_cons_of_mem _ h2
      · rw [dictInsert, if_neg hq] at h
        rcases List.mem_cons.mp h with h1 | h2
        · left; simp [h1]
        · rcases ih h2 with h3 | h4
          · left; exact List.mem_cons_of_mem _ h3
          · right; exact h4

theorem lastValue_nil (k : String) : lastValue [] k = none := rfl

theorem lastValue_cons (p : String × String) (rest : List (String × String))
    (k : String) :
    lastValue (p :: rest) k =
      (lastValue rest k).or (if p.1 = k then some p.2 else none) := by
  simp only [lastValue, List.reverse_cons, List.find?_append]
  by_cases hp : p.1 = k
  · cases h : rest.reverse.find? (fun q => q.1 = k) <;>
      simp [h, List.find?, hp]
  · cases h : rest.reverse.find? (fun q => q.1 = k) <;>
      simp [h, List.find?, hp]

theorem foldl_dictInsert_get (ps : List (String × String))
    (d : List (String × String)) (k : String) :
    dictGet? (ps.foldl (fun d p => dictInsert d p.1 p.2) d) k =
      (lastValue ps k).or (dictGet? d k) := by
  induction ps generalizing d with
  | nil => simp [lastValue_nil]
  | cons p rest ih =>
      rw [List.foldl_cons, ih, dictGet?_dictInsert, lastValue_cons]
      by_cases hp : p.1 = k
      · cases h : lastValue rest k <;> simp [h, hp]
      · cases h : lastValue rest k <;>
          simp [h, hp, show ¬ k = p.1 from fun hc => hp hc.symm]

theorem mem_foldl_dictInsert (ps : List (String × String))
    (d : List (String × String)) (p : String × String)
    (h : p ∈ ps.foldl (fun d q => dictInsert d q.1 q.2) d) :
    p ∈ d ∨ p ∈ ps := by
  induction ps generalizing d with
  | nil => left; simpa using h
  | cons q rest ih =>
      rw [List.foldl_cons] at h
      rcases ih _ h with h1 | h2
      · rcases mem_dictInsert _ _ _ _ h1 with h3 | h4
        · left; exact h3
        · right; simp [h4]
      · right; exact List.mem_cons_of_mem _ h2

theorem keptLine_iff (L : String) :
    keptLine L = true ↔
      ((partitionColon L).1 ≠ "" ∨ (partitionColon L).2 ≠ "") := by
  simp [keptLine, not_and_or]

theorem foldl_parseStep_bridge (ls : List String)
    (d : List (String × String)) :
    ls.foldl parseStep d =
      ((ls.filter keptLine).map stripPair).foldl
        (fun d p => dictInsert d p.1 p.2) d := by
  induction ls generalizing d with
  | nil => rfl
  | cons L rest ih =>
      rw [List.foldl_cons]
      by_cases h : (partitionColon L).1 ≠ "" ∨ (partitionColon L).2 ≠ ""
      · rw [List.filter_cons_of_pos ((keptLine_iff L).mpr h), List.map_cons,
          List.foldl_cons]
        have hstep : parseStep d L =
            dictInsert d (pyStrip (partitionColon L).1)
              (pyStrip (partitionColon L).2) := by
          simp [parseStep, h]
        rw [hstep]
        exact ih _
      · have hstep : parseStep d L = d := by
          simp only [parseStep]
          rw [if_neg h]
        have hkept : keptLine L = false := by
          cases ht : keptLine L
          · rfl
          · exact absurd ((keptLine_iff L).mp ht) h
        rw [hstep, List.filter_cons_of_neg (by simp [hkept])]
        exact ih d

theorem writeFiles_events (m : List (String × String)) (t : Trace) :
    (writeFiles m t).events =
      t.events ++ m.map (fun p => Event.writeFile p.1) := by
  induction m generalizing t with
  | nil => simp [writeFiles]
  | cons p rest ih =>
      show (writeFiles rest (writeFile1 p.1 t)).events = _
      rw [ih, writeFile1]
      simp

theorem exec_mem_writeFiles (m : List (String × String)) (t : Trace)
    (a fp : List String)
    (h : Event.execProgram a fp ∈ (writeFiles m t).events) :
    Event.execProgram a fp ∈ t.events := by
  rw [writeFiles_events] at h
  rcases List.mem_append.mp h with h1 | h2
  · exact h1
  · rcases List.mem_map.mp h2 with ⟨p, _, hp⟩
    cases hp

theorem exec_mem_removeIfExists (f : String) (t : Trace) (a fp : List String)
    (h : Event.execProgram a fp ∈ (removeIfExists f t).events) :
    Event.execProgram a fp ∈ t.events := by
  by_cases hf : f ∈ t.files
  · rw [removeIfExists, if_pos hf] at h
    rcases List.mem_append.mp h with h1 | h2
    · exact h1
    · exact absurd (List.mem_singleton.mp h2) (by simp)
  · rwa [removeIfExists, if_neg hf] at h

theorem exec_mem_cleanupFiles (fs : List String) (t : Trace)
    (a fp : List String)
    (h : Event.execProgram a fp ∈ (cleanupFiles fs t).events) :
    Event.execProgram a fp ∈ t.events := by
  induction fs generalizing t with
  | nil => exact h
  | cons f rest ih =>
      exact exec_mem_removeIfExists f t a fp (ih (removeIfExists f t) h)

theorem removeIfExists_files_subset (f x : String) (t : Trace)
    (h : x ∈ (removeIfExists f t).files) : x ∈ t.files := by
  by_cases hf : f ∈ t.files
  · rw [removeIfExists, if_pos hf] at h
    exact List.mem_of_mem_filter h
  · rwa [removeIfExists, if_neg hf] at h

theorem cleanupFiles_files_subset (fs : List String) (x : String) (t : Trace)
    (h : x ∈ (cleanupFiles fs t).files) : x ∈ t.files := by
  induction fs generalizing t with
  | nil => exact h
  | cons f rest ih =>
      exact removeIfExists_files_subset f x t (ih (removeIfExists f t) h)

theorem not_mem_removeIfExists_self (f : String) (t : Trace) :
    f ∉ (removeIfExists f t).files := by
  by_cases hf : f ∈ t.files
  · rw [removeIfExists, if_pos hf]
    intro h
    have := (List.mem_filter.mp h).2
    simp at this
  · rw [removeIfExists, if_neg hf]
    exact hf

theorem cleanupFiles_removes (fs : List String) (n : String) (hn : n ∈ fs)
    (t : Trace) : n ∉ (cleanupFiles fs t).files := by
  induction fs generalizing t with
  | nil => cases hn
  | cons f rest ih =>
      rcases List.mem_cons.mp hn with h1 | h2
      · subst h1
        intro hmem
        exact not_mem_removeIfExists_self n t
          (cleanupFiles_files_subset rest n (removeIfExists n t) hmem)
      · exact ih h2 (removeIfExists f t)

theorem writeFile1_files_mono (nm x : String) (t : Trace)
    (h : x ∈ t.files) : x ∈ (writeFile1 nm t).files := by
  by_cases hn : nm ∈ t.files
  · rw [writeFile1]
    simpa [hn] using h
  · rw [writeFile1]
    simp only [if_neg hn]
    exact List.mem_append_left _ h

theorem writeFiles_files_mono (m : List (String × String)) (x : String)
    (t : Trace) (h : x ∈ t.files) : x ∈ (writeFiles m t).files := by
  induction m generalizing t with
  | nil => exact h
  | cons p rest ih =>
      exact ih (writeFile1 p.1 t) (writeFile1_files_mono p.1 x t h)

theorem mem_writeFile1_self (nm : String) (t : Trace) :
    nm ∈ (writeFile1 nm t).files := by
  by_cases hn : nm ∈ t.files
  · rw [writeFile1]
    simp [hn]
  · rw [writeFile1]
    simp [hn]

theorem mem_writeFiles_of_key (m : List (String × String)) (n : String)
    (hn : n ∈ m.map Prod.fst) (t : Trace) :
    n ∈ (writeFiles m t).files := by
  induction m generalizing t with
  | nil => cases hn
  | cons p rest ih =>
      rcases List.mem_cons.mp hn with h1 | h2
      · subst h1
        exact writeFiles_files_mono rest _ (writeFile1 _ t)
          (mem_writeFile1_self _ t)
      · exact ih h2 (writeFile1 p.1 t)

theorem run_program_tr_files (renv : RunEnv) (args : List String)
    (seed : Int) (t : Trace) :
    (run_program_tr renv args seed t).2.files = t.files := rfl

/-- Supporting result: on the native path with a provided (non-`None`)
headers mapping, every written source and header is absent from the working
directory when `run_cuda_script` returns, and any program execution the
call performs happens with none of the written files present. -/
theorem run_cuda_script_cleanup_with_headers (cenv : CompileEnv)
    (renv : RunEnv) (sources hs : List (String × String))
    (arch : Option Int) (incs : Option (List String)) (seed : Int)
    (t : Trace) :
    (∀ n ∈ sources.map Prod.fst ++ hs.map Prod.fst,
      n ∉ (run_cuda_script cenv renv sources (some hs) arch incs seed
            t).2.files) ∧
    (∀ a fp,
      Event.execProgram a fp ∈
          (run_cuda_script cenv renv sources (some hs) arch incs seed
            t).2.events →
      Event.execProgram a fp ∈ t.events ∨
        ∀ n ∈ sources.map Prod.fst ++ hs.map Prod.fst, n ∉ fp) := by
  by_cases hc :
      (compile_cuda_script cenv (sources.map Prod.fst) arch incs).success
  · constructor
    · intro n hn
      simp only [run_cuda_script, hc, if_true, run_program_tr]
      exact cleanupFiles_removes _ n hn _
    · intro a fp hmem
      simp only [run_cuda_script, hc, if_true, run_program_tr] at hmem
      rcases List.mem_append.mp hmem with h1 | h2
      · left
        exact exec_mem_writeFiles _ _ _ _
          (exec_mem_writeFiles _ _ _ _ (exec_mem_cleanupFiles _ _ _ _ h1))
      · right
        rcases List.mem_singleton.mp h2 with heq
        cases heq
        intro n hn
        exact cleanupFiles_removes _ n hn _
  · rw [Bool.not_eq_true] at hc
    constructor
    · intro n hn
      simp only [run_cuda_script, hc, Bool.false_eq_true, if_false]
      exact cleanupFiles_removes _ n hn _
    · intro a fp hmem
      simp only [run_cuda_script, hc, Bool.false_eq_true, if_false] at hmem
      left
      exact exec_mem_writeFiles _ _ _ _
        (exec_mem_writeFiles _ _ _ _ (exec_mem_cleanupFiles _ _ _ _ hmem))

/-- Supporting result: on the scripted path, every written source is absent
from the working directory when `run_pytorch_script` returns, on both the
normal path and the failed-assertion path. -/
theorem run_pytorch_script_cleanup (renv : RunEnv)
    (sources : List (String × String)) (main : String) (arch : Option Int)
    (seed : Int) (t : Trace) :
    ∀ n ∈ sources.map Prod.fst,
      n ∉ (run_pytorch_script renv sources main arch seed t).2.files := by
  intro n hn
  by_cases hm : main ∈ sources.map Prod.fst
  · simp only [run_pytorch_script, hm, if_pos]
    exact cleanupFiles_removes _ n hn _
  · simp only [run_pytorch_script, hm, if_neg, if_false]
    exact cleanupFiles_removes _ n hn _

/-- Claim C9: the verdict payload `"check: pass\nscore: 12.5\n"` parses to
exactly the mapping containing `check` bound to `pass` and `score` bound to
`12.5`. -/
theorem claim_C9_roundtrip_payload :
    parseVerdict "check: pass\nscore: 12.5\n" =
      [("check", "pass"), ("score", "12.5")] := by decide

/-- Claim C5: for every `run_program` invocation, the returned `RunResult`'s
`success` field is true exactly when the child's exit code equals the
full-success code 0 (`ExitCode.SUCCESS`) or the recognized validation-failed
code `ExitCode.VALIDATE_FAIL`; any other exit code yields `success=false`. -/
theorem claim_C5_success_iff_exit_code (o : ChildOutcome)
    (args : List String) (seed : Int) :
    (run_program o args seed).1.success = true ↔
      (o.returncode = 0 ∨ o.returncode = ExitCode.VALIDATE_FAIL) := by
  simp [run_program, ExitCode.SUCCESS]

/-- Claim C3: for every `run_program` invocation, `passed` is true exactly
when the parsed verdict mapping binds `check` to `pass`; in particular a
child that exits with code 0 but never reports `check: pass` through the
pipe gets `passed=false`. -/
theorem claim_C3_passed_iff_check_pass (o : ChildOutcome)
    (args : List String) (seed : Int) :
    ((run_program o args seed).1.passed = true ↔
      dictGet? (parseVerdict o.pipeContent) "check" = some "pass") ∧
    (o.returncode = 0 →
      dictGet? (parseVerdict o.pipeContent) "check" ≠ some "pass" →
      (run_program o args seed).1.passed = false) := by
  constructor
  · simp [run_program]
  · intro _ hne
    simp [run_program, hne]

/-- Witness for C3: a child that exits 0 but writes nothing to the pipe is
not marked as passed. -/
theorem claim_C3_witness :
    (run_program
        { returncode := 0, stdout := "", stderr := "", pipeContent := "",
          duration := 1 } ["./eval.out"] 42).1.passed = false :=
  (claim_C3_passed_iff_check_pass
      { returncode := 0, stdout := "", stderr := "", pipeContent := "",
        duration := 1 } ["./eval.out"] 42).2 rfl (by decide)

/-- Claim C6: whenever the `which nvcc` lookup fails,
`compile_cuda_script` returns (rather than raises) a `CompileResult` with
`nvcc_found=false`, `success=false`, an empty version string, and the
lookup failure's command, stdout, stderr and exit code captured in the
corresponding fields. -/
theorem claim_C6_toolchain_missing (cenv : CompileEnv)
    (files : List String) (arch : Option Int) (incs : Option (List String))
    (e : CalledProcessError) (h : cenv.whichNvcc = Except.error e) :
    compile_cuda_script cenv files arch incs =
      { nvcc_found := false, nvcc_version := "", success := false,
        command := mkCmd e.cmd, stdout := e.stdout, stderr := e.stderr,
        exit_code := e.returncode } := by
  simp [compile_cuda_script, h]

/-- Witness for C6: the fixture environment whose `which nvcc` exits 1. -/
theorem claim_C6_witness :
    compile_cuda_script cenvNoNvcc ["kernel.cu"] none none =
      { nvcc_found := false, nvcc_version := "", success := false,
        command := mkCmd ["which", "nvcc"], stdout := "",
        stderr := "not found", exit_code := 1 } :=
  claim_C6_toolchain_missing cenvNoNvcc ["kernel.cu"] none none
    { cmd := ["which", "nvcc"], stdout := "", stderr := "not found",
      returncode := 1 } rfl

/-- Claim C7: in every `run_program` invocation the parent closes its copy
of the pipe's write end immediately after spawning the child (step index 3,
one past the spawn at index 2) and before reading the read end to
end-of-stream (index 4), and that close is the only close of the write end
the parent performs. -/
theorem claim_C7_close_write_end_ordering (o : ChildOutcome)
    (args : List String) (seed : Int) :
    (run_program o args seed).2 =
      [SysOp.osPipe, SysOp.setPopcornEnv seed, SysOp.spawnChild args,
       SysOp.closeWriteEnd, SysOp.readPipeToEof] ∧
    ((run_program o args seed).2)[2]? = some (SysOp.spawnChild args) ∧
    ((run_program o args seed).2)[3]? = some SysOp.closeWriteEnd ∧
    ((run_program o args seed).2)[4]? = some SysOp.readPipeToEof ∧
    (run_program o args seed).2.countP
      (fun op => op == SysOp.closeWriteEnd) = 1 :=
  ⟨rfl, rfl, rfl, rfl, rfl⟩

/-- Claim C8: for every configuration whose language is neither `"cu"` nor
`"py"`, `run_config` raises `ValueError` and leaves the working directory
exactly as it was (no file written, no event performed), with no fallback
to a default variant. -/
theorem claim_C8_invalid_language (cenv : CompileEnv) (renv : RunEnv)
    (config : Config) (t : Trace) (hpy : config.lang ≠ "py")
    (hcu : config.lang ≠ "cu") :
    run_config cenv renv config t =
      (Except.error
        (PyErr.valueError ("Invalid language " ++ config.lang)), t) := by
  simp [run_config, hpy, hcu]

/-- Witness for C8: the unrecognized language `"zz"`. -/
theorem claim_C8_witness :
    run_config cenvOk renvPass
      { lang := "zz", sources := [("main.py", "x")], main := "main.py",
        arch := none, headers := none, include_dirs := none } emptyTrace =
      (Except.error (PyErr.valueError "Invalid language zz"),
       emptyTrace) :=
  claim_C8_invalid_language cenvOk renvPass
    { lang := "zz", sources := [("main.py", "x")], main := "main.py",
      arch := none, headers := none, include_dirs := none } emptyTrace
    (by decide) (by decide)

/-- Claim C4: for every verdict payload, looking up any key in the parsed
mapping yields exactly the value of the *last* kept line with that key
(lines are split on their first colon, keys and values are whitespace
trimmed, and a line is kept unless its raw split yields an empty key and an
empty value); moreover everything in the mapping comes from a kept line,
so dropped lines are absent. -/
theorem claim_C4_verdict_line_semantics (s : String) :
    (∀ k, dictGet? (parseVerdict s) k = lastValue (keptPairs s) k) ∧
    (∀ p ∈ parseVerdict s, p ∈ keptPairs s) := by
  constructor
  · intro k
    rw [parseVerdict, foldl_parseStep_bridge]
    have h := foldl_dictInsert_get
      (((pySplitlines s).filter keptLine).map stripPair) [] k
    rw [dictGet?_nil] at h
    rw [h, Option.or_none]
    rfl
  · intro p hp
    rw [parseVerdict, foldl_parseStep_bridge] at hp
    rcases mem_foldl_dictInsert _ _ _ hp with h1 | h2
    · exact absurd h1 (List.not_mem_nil p)
    · exact h2

/-- Witness for C4: the line `" a : b "` is kept and contributes the
trimmed pair. -/
theorem claim_C4_witness : ("a", "b") ∈ keptPairs " a : b " :=
  (claim_C4_verdict_line_semantics " a : b ").2 ("a", "b") (by decide)

/-- Claim C2: for every native job whose compilation fails, the returned
pair holds the failing `CompileResult` together with the synthetic failed
`RunResult` (success=false, passed=false, empty command/stdout/stderr,
exit code -1, duration 0, empty result mapping), and no program execution
event is performed (the Process Runner is never invoked). -/
theorem claim_C2_compile_failure_short_circuits (cenv : CompileEnv)
    (renv : RunEnv) (sources hs : List (String × String))
    (arch : Option Int) (incs : Option (List String)) (seed : Int)
    (t : Trace)
    (h : (compile_cuda_script cenv (sources.map Prod.fst) arch
        incs).success = false) :
    (run_cuda_script cenv renv sources (some hs) arch incs seed t).1 =
      Except.ok
        (compile_cuda_script cenv (sources.map Prod.fst) arch incs,
         { success := false, passed := false, command := "", stdout := "",
           stderr := "", exit_code := -1, duration := 0, result := [] }) ∧
    (∀ a fp,
      Event.execProgram a fp ∈
          (run_cuda_script cenv renv sources (some hs) arch incs seed
            t).2.events →
      Event.execProgram a fp ∈ t.events) := by
  constructor
  · simp [run_cuda_script, h, syntheticFailedRun]
  · intro a fp hmem
    simp only [run_cuda_script, h, Bool.false_eq_true, if_false] at hmem
    exact exec_mem_writeFiles _ _ _ _
      (exec_mem_writeFiles _ _ _ _ (exec_mem_cleanupFiles _ _ _ _ hmem))

/-- Witness for C2: a job compiled in an environment without a toolchain. -/
theorem claim_C2_witness :
    (run_cuda_script cenvNoNvcc renvSilent [("kernel.cu", "x")] (some [])
        none none 42 emptyTrace).1 =
      Except.ok
        (compile_cuda_script cenvNoNvcc ["kernel.cu"] none none,
         { success := false, passed := false, command := "", stdout := "",
           stderr := "", exit_code := -1, duration := 0, result := [] }) :=
  (claim_C2_compile_failure_short_circuits cenvNoNvcc renvSilent
      [("kernel.cu", "x")] [] none none 42 emptyTrace (by decide)).1

/-- Claim C10: calling `run_cuda_script` with a non-empty sources mapping
and `headers` left at its default `None` raises after the source files have
been written; the `finally` block itself fails at `headers.keys()` before
removing any file, so the written sources remain in the working directory
when the exception propagates (the final trace is exactly the post-write
trace). -/
theorem claim_C10_default_headers_leak (cenv : CompileEnv) (renv : RunEnv)
    (sources : List (String × String)) (arch : Option Int)
    (incs : Option (List String)) (seed : Int) (t : Trace)
    (hne : sources ≠ []) :
    (run_cuda_script cenv renv sources none arch incs seed t).1 =
      Except.error
        (PyErr.attributeError "NoneType object has no attribute keys") ∧
    (run_cuda_script cenv renv sources none arch incs seed t).2 =
      writeFiles sources t ∧
    (∀ n ∈ sources.map Prod.fst,
      n ∈ (run_cuda_script cenv renv sources none arch incs seed
            t).2.files) ∧
    (run_cuda_script cenv renv sources none arch incs seed t).2.files ≠
      [] := by
  refine ⟨rfl, rfl, ?_, ?_⟩
  · intro n hn
    exact mem_writeFiles_of_key sources n hn t
  · obtain ⟨p, rest, rfl⟩ := List.exists_cons_of_ne_nil hne
    exact List.ne_nil_of_mem (mem_writeFiles_of_key _ p.1 (by simp) t)

/-- Witness for C10: one concrete source file, headers left at `None`. -/
theorem claim_C10_witness :
    (run_cuda_script cenvOk renvSilent [("kernel.cu", "x")] none none none
        42 emptyTrace).1 =
      Except.error
        (PyErr.attributeError "NoneType object has no attribute keys") ∧
    "kernel.cu" ∈ (run_cuda_script cenvOk renvSilent [("kernel.cu", "x")]
        none none none 42 emptyTrace).2.files := by
  have h := claim_C10_default_headers_leak cenvOk renvSilent
    [("kernel.cu", "x")] none none 42 emptyTrace (by decide)
  exact ⟨h.1, h.2.2.1 "kernel.cu" (by decide)⟩

/-- Claim C1 is violated by the code: an evaluation attempt started with
the native entry point's own default `headers=None` raises after writing
the sources and returns with `kernel.cu` still present in the working
directory, so it is not the case that every written file is removed on
every exit path.  (With a provided headers mapping the cleanup and the
remove-before-execute ordering do hold; see
`run_cuda_script_cleanup_with_headers`.) -/
theorem claim_C1_cleanup_violated_at_default_headers :
    (run_cuda_script cenvOk renvSilent [("kernel.cu", "x")] none none none
        42 emptyTrace).1 =
      Except.error
        (PyErr.attributeError "NoneType object has no attribute keys") ∧
    (run_cuda_script cenvOk renvSilent [("kernel.cu", "x")] none none none
        42 emptyTrace).2.files = ["kernel.cu"] :=
  ⟨rfl, by decide⟩
